import Mathlib

/-!
A shallow embedding of the request engine of the OpenRouter API testing
client (`openrouter_client/api/client.py`, `openrouter_client/utils/token_tracker.py`,
`openrouter_client/config/settings.py`), together with theorems settling the
specification claims about it.

Conventions of the embedding:
* Python integers are `Int`, Python floats used as prices/delays are `ℚ`.
* The mutable engine state (token accumulator plus the configuration
  singleton) is threaded explicitly; observable side effects
  (`_update_status` calls, `config.save_config`, `time.sleep`, result
  callbacks) are recorded in an ordered effect list.
* The HTTP exchange is the externally supplied outcome of one
  `requests.post` call (`HttpOutcome` below); everything after that point
  is translated from the source.
* `logger.error`/`logger.info`-only lines (pure logging, no callback) are
  not modelled as effects; `_update_status` calls are.
-/

/-- Status lines pushed through `ApiClient._update_status`, modelled
structurally: each constructor corresponds to one f-string in the source
and carries the data interpolated into it. -/
inductive StatusEvent where
  | sendingRequest (model : String)
  | responseReceived
  | unexpectedFormat
  | updatedMaxTokens (n : Int)
  | decodeFailed
  | unexpectedError (msg : String)
  | requestFailed (msg : String)
  | authFailed
  | creditsExhausted (refractoryMinutes : ℚ)
  | inflictedDamage (costRounded : ℚ)
  | makingCall (n : Nat)
  | waiting (delaySeconds : ℚ)
  | stopped
  | stopping
deriving DecidableEq, Repr

/-- The message object inside a response choice (`choices[i].message`);
`content` is `none` when the `content` key is absent. -/
structure Message where
  content : Option String
deriving DecidableEq, Repr

/-- One element of the response `choices` array; `message` is `none` when
the `message` key is absent. -/
structure Choice where
  message : Option Message
deriving DecidableEq, Repr

/-- The response `usage` object; each field is `none` when the
corresponding key is absent. -/
structure UsageObj where
  prompt_tokens : Option Int
  completion_tokens : Option Int
deriving DecidableEq, Repr

/-- The response `error` object; `message` is `none` when the `message`
key is absent. -/
structure ErrorObj where
  message : Option String
deriving DecidableEq, Repr

/-- A parsed JSON response body, restricted to the schema the client
reads: `choices`, `usage`, `model`, `created`, `id`, `error`.  A `none`
field models an absent key. -/
structure ResponseData where
  choices : Option (List Choice)
  usage : Option UsageObj
  model : Option String
  created : Option Int
  id : Option String
  error : Option ErrorObj
deriving DecidableEq, Repr

/-- The `usage` dict defaulted to `{}` (`response_data.get("usage", {})`). -/
def emptyUsage : UsageObj := { prompt_tokens := none, completion_tokens := none }

/-- The metadata dict built by `_handle_successful_response`. -/
structure Metadata where
  model : String
  usage : UsageObj
  created : Int
  id : String
deriving DecidableEq, Repr

/-- The `(success, content, metadata)` triple returned by
`ApiClient.make_api_request`. -/
structure CallResult where
  success : Bool
  content : Option String
  metadata : Option Metadata
deriving DecidableEq, Repr

/-- The engine-relevant slice of the configuration singleton
(`Config._config` in `settings.py`): exactly the keys the request engine
reads or writes. -/
structure ConfigState where
  model : String
  system_prompt : String
  max_tokens : Int
  request_delay_seconds : ℚ
  refractory_seconds : ℚ
  request_timeout : ℚ
  input_price_per_million : ℚ
  output_price_per_million : ℚ
deriving DecidableEq, Repr

/-- The configuration defaults (`Config.DEFAULT_CONFIG`) restricted to the
engine-relevant keys. -/
def cfg0 : ConfigState :=
  { model := "openai/o1-pro"
    system_prompt := "You are a helpful assistant."
    max_tokens := 0
    request_delay_seconds := 1
    refractory_seconds := 300
    request_timeout := 30
    input_price_per_million := 150
    output_price_per_million := 600 }

/-- The usage accumulator (`TokenUsage` in `token_tracker.py`). -/
structure TokenUsage where
  input_tokens : Int
  output_tokens : Int
  call_count : Int
deriving DecidableEq, Repr

/-- `TokenUsage.__init__`: all counters start at zero. -/
def TokenUsage.init : TokenUsage := { input_tokens := 0, output_tokens := 0, call_count := 0 }

/-- `TokenUsage.update`: adds both token counts and increments the call
counter. -/
def TokenUsage.update (t : TokenUsage) (prompt_tokens completion_tokens : Int) : TokenUsage :=
  { input_tokens := t.input_tokens + prompt_tokens
    output_tokens := t.output_tokens + completion_tokens
    call_count := t.call_count + 1 }

/-- `TokenUsage.reset`: zeroes all three counters. -/
def TokenUsage.reset (_ : TokenUsage) : TokenUsage :=
  { input_tokens := 0, output_tokens := 0, call_count := 0 }

/-- `TokenUsage.calculate_cost`: derived cost, recomputed from the current
counters and the current price settings on every call. -/
def TokenUsage.calculate_cost (t : TokenUsage) (cfg : ConfigState) : ℚ :=
  (t.input_tokens : ℚ) / 1000000 * cfg.input_price_per_million
    + (t.output_tokens : ℚ) / 1000000 * cfg.output_price_per_million

/-- Folds a sequence of `update` calls over an accumulator (used to state
properties about every sequence of updates). -/
def applyUpdates (t : TokenUsage) (l : List (Int × Int)) : TokenUsage :=
  l.foldl (fun acc pc => acc.update pc.1 pc.2) t

/-- Round half to even, modelling Python `round` on a real value. -/
def roundHalfEven (q : ℚ) : Int :=
  let n := ⌊q⌋
  let r := q - (n : ℚ)
  if r < 1/2 then n
  else if r > 1/2 then n + 1
  else if n % 2 = 0 then n else n + 1

/-- Python `round(x, 2)`, idealised over `ℚ`. -/
def pyRound2 (q : ℚ) : ℚ := (roundHalfEven (q * 100) : ℚ) / 100

/-- Python `int()` truncation toward zero of a number. -/
def pyTrunc (q : ℚ) : Int := if 0 ≤ q then ⌊q⌋ else -⌊-q⌋

/-- Accumulating worker for `pySplit`: splits the remaining characters on
whitespace runs, dropping empty words (Python `str.split()`). -/
def splitWsAux : List Char → List Char → List String
  | [], cur => if cur.isEmpty then [] else [⟨cur.reverse⟩]
  | c :: cs, cur =>
    if c.isWhitespace then
      if cur.isEmpty then splitWsAux cs []
      else (⟨cur.reverse⟩ : String) :: splitWsAux cs []
    else splitWsAux cs (c :: cur)

/-- Python `str.split()` with no argument: split on whitespace runs,
no empty words. -/
def pySplit (s : String) : List String := splitWsAux s.data []

/-- True for the characters stripped by `rstrip(".,:;")` in the source. -/
def isStripPunct (c : Char) : Bool := c = '.' || c = ',' || c = ':' || c = ';'

/-- Python `word.rstrip(".,:;")`: drop trailing characters from that set. -/
def pyRstrip (s : String) : String := ⟨(s.data.reverse.dropWhile isStripPunct).reverse⟩

/-- Accumulating worker for `digitPart`: the remainder of a Python integer
literal after its first digit (digits with single interior underscores). -/
def digitPartAux : List Char → Nat → Option Nat
  | [], acc => some acc
  | ['_'], _ => none
  | '_' :: d :: ds, acc =>
    if d.isDigit then digitPartAux ds (acc * 10 + (d.toNat - 48)) else none
  | c :: cs, acc =>
    if c = '_' then none
    else if c.isDigit then digitPartAux cs (acc * 10 + (c.toNat - 48)) else none

/-- A Python `digitpart`: one digit followed by digits with optional
single interior underscores. -/
def digitPart : List Char → Option Nat
  | [] => none
  | c :: cs => if c.isDigit then digitPartAux cs (c.toNat - 48) else none

/-- Python `int(s)` on a whitespace-free string: optional sign followed by
a digit part; `none` models the `ValueError` branch. -/
def pyIntParse (s : String) : Option Int :=
  match s.data with
  | '+' :: rest => (digitPart rest).map (fun n => (n : Int))
  | '-' :: rest => (digitPart rest).map (fun n => -(n : Int))
  | cs => (digitPart cs).map (fun n => (n : Int))

/-- Whether the needle list is a leading segment of the haystack list. -/
def beginsWith : List Char → List Char → Bool
  | [], _ => true
  | _ :: _, [] => false
  | n :: ns, h :: hs => n = h && beginsWith ns hs

/-- Whether the needle occurs as a contiguous segment of the haystack. -/
def hasSubstring : List Char → List Char → Bool
  | ns, [] => ns.isEmpty
  | ns, h :: hs => beginsWith ns (h :: hs) || hasSubstring ns hs

/-- Python `needle in hay` on strings: substring containment. -/
def pyInStr (needle hay : String) : Bool := hasSubstring needle.data hay.data

/-- One recorded observable side effect of the engine: a status line, a
`config.save_config()` call, a `time.sleep(seconds)` call, or a result
callback invocation. -/
inductive Eff where
  | status (e : StatusEvent)
  | saveConfig
  | sleep (seconds : ℚ)
  | callback (success : Bool) (content : Option String) (metadata : Option Metadata)
deriving DecidableEq, Repr

/-- The mutable state a single call can touch: the usage accumulator and
the configuration singleton. -/
structure EngineState where
  usage : TokenUsage
  cfg : ConfigState
deriving DecidableEq, Repr

/-- A fresh engine state: zero counters, default configuration. -/
def st0 : EngineState := { usage := TokenUsage.init, cfg := cfg0 }

/-- Return value of one call path: the result triple, the state after the
call, and the effects emitted during it, in order. -/
structure CallOutput where
  result : CallResult
  state : EngineState
  effs : List Eff
deriving DecidableEq, Repr

/-- One message of the request payload. -/
structure ChatMessage where
  role : String
  content : String
deriving DecidableEq, Repr

/-- The JSON payload built at the top of `make_api_request`; `max_tokens`
is included only when the configured value is positive. -/
structure Payload where
  model : String
  messages : List ChatMessage
  max_tokens : Option Int
deriving DecidableEq, Repr

/-- Payload construction from `make_api_request` lines 56-68. -/
def buildPayload (cfg : ConfigState) (prompt : String) : Payload :=
  { model := cfg.model
    messages := [{ role := "system", content := cfg.system_prompt },
                 { role := "user", content := prompt }]
    max_tokens := if cfg.max_tokens > 0 then some cfg.max_tokens else none }

/-- The content placeholder used when `choices[0].message.content` is
absent. -/
def defaultContent : String := "No content found in response."

/-- The content string returned on a 402 payment-required failure. -/
def paymentMsg : String := "API credits exhausted (402). Please wait or try with a different API key."

/-- The content string returned on a 401/403 authentication failure. -/
def authMsg : String := "Authentication failed. Please check your API key."

/-- The head step of the affordability scan: at the loop position holding
word `w`, the integer to write, if any (`w == "afford"`, a next word
exists, and the next word parses after `rstrip(".,:;")`). -/
def affordHead (w : String) (rest : List String) : Option Int :=
  match rest with
  | [] => none
  | w2 :: _ => if w = "afford" then pyIntParse (pyRstrip w2) else none

/-- The `for i, word in enumerate(words)` scan in
`_handle_successful_response` lines 149-158: each successful parse of the
word after an `"afford"` emits a status line, writes `max_tokens`, and
saves the configuration; parse failures are swallowed. -/
def affordScan : List String → ConfigState → ConfigState × List Eff
  | [], cfg => (cfg, [])
  | w :: rest, cfg =>
    match affordHead w rest with
    | some n =>
      let next := affordScan rest { cfg with max_tokens := n }
      (next.1, Eff.status (StatusEvent.updatedMaxTokens n) :: Eff.saveConfig :: next.2)
    | none => affordScan rest cfg

/-- `ApiClient._handle_successful_response`: the non-empty-`choices` case
returns success with defaulted content and updates the accumulator; the
other case reports an unexpected format, optionally runs the
affordability scan on the error message, and fails with no content and no
metadata. -/
def handle_successful_response (st : EngineState) (rd : ResponseData) : CallOutput :=
  match rd.choices with
  | some (ch :: _) =>
    let content := (ch.message.bind Message.content).getD defaultContent
    let u := rd.usage.getD emptyUsage
    let tu := st.usage.update (u.prompt_tokens.getD 0) (u.completion_tokens.getD 0)
    let md : Metadata :=
      { model := rd.model.getD "unknown"
        usage := u
        created := rd.created.getD 0
        id := rd.id.getD "" }
    { result := { success := true, content := some content, metadata := some md }
      state := { st with usage := tu }
      effs := [Eff.status StatusEvent.responseReceived] }
  | _ =>
    let failOut : CallResult := { success := false, content := none, metadata := none }
    match rd.error with
    | some err =>
      let m := err.message.getD ""
      if pyInStr "afford" m then
        let scanned := affordScan (pySplit m) st.cfg
        { result := failOut
          state := { st with cfg := scanned.1 }
          effs := Eff.status StatusEvent.unexpectedFormat :: scanned.2 }
      else
        { result := failOut, state := st, effs := [Eff.status StatusEvent.unexpectedFormat] }
    | none =>
      { result := failOut, state := st, effs := [Eff.status StatusEvent.unexpectedFormat] }

/-- The response object attached to a `requests.RequestException`, when
present. -/
structure RespInfo where
  status_code : Int
  text : String
deriving DecidableEq, Repr

/-- A `requests.RequestException`: its string form and its optional
attached response. -/
structure ReqException where
  msg : String
  response : Option RespInfo
deriving DecidableEq, Repr

/-- `ApiClient._handle_request_exception`: 402 emits the refractory and
cost status lines, zeroes `max_tokens` and saves; 401/403 report an
authentication failure; anything else is a plain request error.  Every
branch returns failure with no metadata. -/
def handle_request_exception (st : EngineState) (e : ReqException) : CallOutput :=
  let base := [Eff.status (StatusEvent.requestFailed e.msg)]
  match e.response with
  | some r =>
    if r.status_code = 402 then
      { result := { success := false, content := some paymentMsg, metadata := none }
        state := { st with cfg := { st.cfg with max_tokens := 0 } }
        effs := base ++
          [Eff.status (StatusEvent.creditsExhausted (st.cfg.refractory_seconds / 60)),
           Eff.status (StatusEvent.inflictedDamage (pyRound2 (st.usage.calculate_cost st.cfg))),
           Eff.saveConfig] }
    else if r.status_code = 401 ∨ r.status_code = 403 then
      { result := { success := false, content := some authMsg, metadata := none }
        state := st
        effs := base ++ [Eff.status StatusEvent.authFailed] }
    else
      { result := { success := false, content := some ("Request error: " ++ e.msg), metadata := none }
        state := st, effs := base }
  | none =>
    { result := { success := false, content := some ("Request error: " ++ e.msg), metadata := none }
      state := st, effs := base }

/-- The outcome of the single `requests.post` exchange, as seen by the
`try` block of `make_api_request`: a decodable 2xx body, a 2xx body that
fails JSON decoding, a `RequestException` (timeouts and the
`raise_for_status` of any non-2xx status), or any other exception. -/
inductive HttpOutcome where
  | ok (rd : ResponseData)
  | badJson
  | reqError (e : ReqException)
  | otherError (msg : String)
deriving DecidableEq, Repr

/-- `ApiClient.make_api_request`: emits the sending status and dispatches
on the outcome of the HTTP exchange. -/
def make_api_request (st : EngineState) (o : HttpOutcome) : CallOutput :=
  let sending := Eff.status (StatusEvent.sendingRequest st.cfg.model)
  match o with
  | HttpOutcome.ok rd =>
    let out := handle_successful_response st rd
    { out with effs := sending :: out.effs }
  | HttpOutcome.badJson =>
    { result := { success := false, content := none, metadata := none }
      state := st
      effs := [sending, Eff.status StatusEvent.decodeFailed] }
  | HttpOutcome.reqError e =>
    let out := handle_request_exception st e
    { out with effs := sending :: out.effs }
  | HttpOutcome.otherError m =>
    { result := { success := false, content := none, metadata := none }
      state := st
      effs := [sending, Eff.status (StatusEvent.unexpectedError m)] }

/-- The run-state flags of `ApiClient` (`is_running`, `should_stop`). -/
structure Engine where
  is_running : Bool
  should_stop : Bool
deriving DecidableEq, Repr

/-- `ApiClient.__init__`: both flags start false. -/
def Engine.initial : Engine := { is_running := false, should_stop := false }

/-- `ApiClient.start_continuous_requests` lines 209-213: returns without
spawning when `is_running` is already set, otherwise sets `is_running`,
clears `should_stop`, and spawns the loop thread.  The boolean records
whether a new loop was spawned. -/
def start_continuous_requests (e : Engine) : Engine × Bool :=
  if e.is_running then (e, false)
  else ({ is_running := true, should_stop := false }, true)

/-- `ApiClient.stop_continuous_requests`: sets `should_stop`
unconditionally and emits a stopping status line. -/
def stop_continuous_requests (e : Engine) : Engine × List Eff :=
  ({ e with should_stop := true }, [Eff.status StatusEvent.stopping])

/-- The loop body reads `self.should_stop` at several program points; the
reads are numbered consecutively and `stop k` is the value the k-th read
observes, so an asynchronous `stop()` is modelled as the point from which
the reads return true.  `delayLoop stop k t` is the inner
`for _ in range(int(delay * 10))` sleep loop starting at read index `t`
with `k` iterations left: it breaks at the first true read, sleeping 0.1
seconds per non-stopped iteration.  Returns the next read index and the
emitted effects. -/
def delayLoop (stop : Nat → Bool) : Nat → Nat → Nat × List Eff
  | 0, t => (t, [])
  | k + 1, t =>
    if stop t then (t + 1, [])
    else
      let next := delayLoop stop k (t + 1)
      (next.1, Eff.sleep (1/10) :: next.2)

/-- `int(config.get("request_delay_seconds") * 10)`: the number of 0.1 s
sleep slices of the inter-call delay. -/
def delayIters (cfg : ConfigState) : Nat := (pyTrunc (cfg.request_delay_seconds * 10)).toNat

/-- The `run_requests` thread body of `start_continuous_requests`,
bounded by `fuel` iterations of the `while not self.should_stop` loop:
each non-stopped iteration emits the call-number status, performs one
`make_api_request` (the `outcomes` stream supplies the HTTP exchanges),
invokes the result callback, re-checks the stop flag, and runs the
preemptible delay loop.  Returns the effects in order and whether the
loop exited by observing the stop flag (fuel exhaustion returns `false`:
the loop is still running). -/
def runRequests (stop : Nat → Bool) (outcomes : Nat → HttpOutcome) :
    Nat → EngineState → Nat → Nat → List Eff × Bool
  | 0, _, _, _ => ([], false)
  | fuel + 1, st, n, t =>
    if stop t then ([Eff.status StatusEvent.stopped], true)
    else
      let out := make_api_request st (outcomes n)
      let evs1 := Eff.status (StatusEvent.makingCall (n + 1)) :: out.effs
        ++ [Eff.callback out.result.success out.result.content out.result.metadata]
      if stop (t + 1) then (evs1 ++ [Eff.status StatusEvent.stopped], true)
      else
        let d := delayLoop stop (delayIters out.state.cfg) (t + 2)
        let rest := runRequests stop outcomes fuel out.state (n + 1) d.1
        (evs1 ++ Eff.status (StatusEvent.waiting out.state.cfg.request_delay_seconds)
           :: d.2 ++ rest.1, rest.2)

/-- The number of result-callback invocations recorded in an effect list. -/
def countCallbacks : List Eff → Nat
  | [] => 0
  | Eff.callback _ _ _ :: es => countCallbacks es + 1
  | _ :: es => countCallbacks es

/-- Whether an effect list contains a `time.sleep` call. -/
def hasSleep : List Eff → Bool
  | [] => false
  | Eff.sleep _ :: _ => true
  | _ :: es => hasSleep es

/-- A decodable success body matching the specification's example:
non-empty choices, content present, `usage={prompt_tokens:10,
completion_tokens:5}`. -/
def rdGood : ResponseData :=
  { choices := some [{ message := some { content := some "hello" } }]
    usage := some { prompt_tokens := some 10, completion_tokens := some 5 }
    model := some "m", created := some 1, id := some "x", error := none }

/-- A decodable body whose `choices[0]` exists but whose message carries
no `content` key. -/
def rdNoContent : ResponseData :=
  { choices := some [{ message := some { content := none } }]
    usage := none, model := none, created := none, id := none, error := none }

/-- A request exception carrying an HTTP 402 response. -/
def e402 : ReqException :=
  { msg := "402 Client Error", response := some { status_code := 402, text := "" } }

/-- A stream of failing HTTP exchanges. -/
def oFailStream : Nat → HttpOutcome := fun _ => HttpOutcome.badJson

/-- A stream of successful HTTP exchanges. -/
def oOkStream : Nat → HttpOutcome := fun _ => HttpOutcome.ok rdGood

lemma applyUpdates_cons (t : TokenUsage) (pc : Int × Int) (l : List (Int × Int)) :
    applyUpdates t (pc :: l) = applyUpdates (t.update pc.1 pc.2) l := rfl

lemma applyUpdates_mono (l : List (Int × Int)) :
    ∀ t : TokenUsage, (∀ pc ∈ l, 0 ≤ pc.1 ∧ 0 ≤ pc.2) →
      t.input_tokens ≤ (applyUpdates t l).input_tokens ∧
      t.output_tokens ≤ (applyUpdates t l).output_tokens ∧
      t.call_count ≤ (applyUpdates t l).call_count := by
  induction l with
  | nil => intro t _; exact ⟨le_refl _, le_refl _, le_refl _⟩
  | cons pc rest ih =>
    intro t h
    have hpc := h pc (List.mem_cons_self _ _)
    have hrest : ∀ q ∈ rest, 0 ≤ q.1 ∧ 0 ≤ q.2 := fun q hq => h q (List.mem_cons_of_mem _ hq)
    have hstep := ih (t.update pc.1 pc.2) hrest
    rw [applyUpdates_cons]
    refine ⟨le_trans ?_ hstep.1, le_trans ?_ hstep.2.1, le_trans ?_ hstep.2.2⟩ <;>
      simp [TokenUsage.update] <;> omega

/-- C8: the accumulator counters are non-negative and monotonically
non-decreasing across every sequence of `update` calls with (non-negative)
token counts, and only `reset` returns them to zero. -/
theorem counters_monotone_nonneg :
    ∀ (t : TokenUsage) (l : List (Int × Int)),
      (∀ pc ∈ l, 0 ≤ pc.1 ∧ 0 ≤ pc.2) →
      (t.input_tokens ≤ (applyUpdates t l).input_tokens ∧
       t.output_tokens ≤ (applyUpdates t l).output_tokens ∧
       t.call_count ≤ (applyUpdates t l).call_count) ∧
      (0 ≤ t.input_tokens → 0 ≤ (applyUpdates t l).input_tokens) ∧
      (0 ≤ t.output_tokens → 0 ≤ (applyUpdates t l).output_tokens) ∧
      (0 ≤ t.call_count → 0 ≤ (applyUpdates t l).call_count) ∧
      t.reset = TokenUsage.init := by
  intro t l h
  have hm := applyUpdates_mono l t h
  exact ⟨hm, fun h0 => le_trans h0 hm.1, fun h0 => le_trans h0 hm.2.1,
    fun h0 => le_trans h0 hm.2.2, rfl⟩

theorem counters_monotone_nonneg_witness :
    (TokenUsage.init.input_tokens ≤ (applyUpdates TokenUsage.init [(10, 5), (3, 4)]).input_tokens ∧
     TokenUsage.init.output_tokens ≤ (applyUpdates TokenUsage.init [(10, 5), (3, 4)]).output_tokens ∧
     TokenUsage.init.call_count ≤ (applyUpdates TokenUsage.init [(10, 5), (3, 4)]).call_count) ∧
    (0 ≤ TokenUsage.init.input_tokens → 0 ≤ (applyUpdates TokenUsage.init [(10, 5), (3, 4)]).input_tokens) ∧
    (0 ≤ TokenUsage.init.output_tokens → 0 ≤ (applyUpdates TokenUsage.init [(10, 5), (3, 4)]).output_tokens) ∧
    (0 ≤ TokenUsage.init.call_count → 0 ≤ (applyUpdates TokenUsage.init [(10, 5), (3, 4)]).call_count) ∧
    TokenUsage.init.reset = TokenUsage.init :=
  counters_monotone_nonneg TokenUsage.init [(10, 5), (3, 4)] (by decide)

/-- C5: starting while a loop is active is a no-op, so two `start` calls
without an intervening `stop` spawn exactly one loop. -/
theorem start_single_loop :
    ∀ e : Engine,
      (e.is_running = true → start_continuous_requests e = (e, false)) ∧
      (e.is_running = false →
        (start_continuous_requests e).2 = true ∧
        (start_continuous_requests e).1.is_running = true ∧
        start_continuous_requests (start_continuous_requests e).1
          = ((start_continuous_requests e).1, false)) := by
  intro e
  constructor
  · intro h; simp [start_continuous_requests, h]
  · intro h; simp [start_continuous_requests, h]

theorem start_single_loop_witness :
    (start_continuous_requests Engine.initial).2 = true ∧
    (start_continuous_requests Engine.initial).1.is_running = true ∧
    start_continuous_requests (start_continuous_requests Engine.initial).1
      = ((start_continuous_requests Engine.initial).1, false) :=
  (start_single_loop Engine.initial).2 rfl

/-- C9 (counterexample): from the freshly constructed idle engine,
`stop_continuous_requests` does change the stored state: it sets the
`should_stop` flag unconditionally. -/
theorem stop_idle_changes_state_counterexample :
    (stop_continuous_requests Engine.initial).1 ≠ Engine.initial := by
  decide

/-- C9 (amended): `stop` is idempotent on the engine state; when the stop
flag is already set it leaves the state unchanged; and from any idle
state it is behaviorally a no-op: a subsequent `start` behaves exactly as
it would have without the `stop`. -/
theorem stop_idempotent_behavioral :
    ∀ e : Engine,
      (stop_continuous_requests (stop_continuous_requests e).1).1
        = (stop_continuous_requests e).1 ∧
      (e.should_stop = true → (stop_continuous_requests e).1 = e) ∧
      (e.is_running = false →
        start_continuous_requests (stop_continuous_requests e).1
          = start_continuous_requests e) := by
  intro e
  refine ⟨rfl, ?_, ?_⟩
  · intro h; cases e; simp_all [stop_continuous_requests]
  · intro h; simp [stop_continuous_requests, start_continuous_requests, h]

theorem stop_idempotent_behavioral_witness :
    (stop_continuous_requests (stop_continuous_requests Engine.initial).1).1
      = (stop_continuous_requests Engine.initial).1 ∧
    start_continuous_requests (stop_continuous_requests Engine.initial).1
      = start_continuous_requests Engine.initial :=
  ⟨(stop_idempotent_behavioral Engine.initial).1,
   (stop_idempotent_behavioral Engine.initial).2.2 rfl⟩

/-- C7 (counterexample): for the accumulator state reached after one call
with zero token usage, changing both price settings does not change
`calculate_cost` — the claim's universal quantification over accumulator
states fails. -/
theorem cost_price_change_counterexample :
    TokenUsage.calculate_cost { input_tokens := 0, output_tokens := 0, call_count := 1 } cfg0
      = TokenUsage.calculate_cost { input_tokens := 0, output_tokens := 0, call_count := 1 }
          { cfg0 with input_price_per_million := 999, output_price_per_million := 999 } := by
  norm_num [TokenUsage.calculate_cost, cfg0]

/-- C7 (amended): `calculate_cost` is the stated pure function of the
current totals and the prices read at calculation time, and changing a
price after calls changes the next result without re-invoking `update`
whenever the corresponding token total is non-zero. -/
theorem calculate_cost_live_prices :
    ∀ (t : TokenUsage) (cfg : ConfigState),
      t.calculate_cost cfg
        = (t.input_tokens : ℚ) / 1000000 * cfg.input_price_per_million
          + (t.output_tokens : ℚ) / 1000000 * cfg.output_price_per_million ∧
      (∀ p' : ℚ, t.input_tokens ≠ 0 → p' ≠ cfg.input_price_per_million →
        t.calculate_cost { cfg with input_price_per_million := p' } ≠ t.calculate_cost cfg) ∧
      (∀ p' : ℚ, t.output_tokens ≠ 0 → p' ≠ cfg.output_price_per_million →
        t.calculate_cost { cfg with output_price_per_million := p' } ≠ t.calculate_cost cfg) := by
  intro t cfg
  refine ⟨rfl, ?_, ?_⟩
  · intro p' hi hp heq
    apply hp
    have hne : (t.input_tokens : ℚ) / 1000000 ≠ 0 :=
      div_ne_zero (Int.cast_ne_zero.mpr hi) (by norm_num)
    have h2 : (t.input_tokens : ℚ) / 1000000 * p'
        = (t.input_tokens : ℚ) / 1000000 * cfg.input_price_per_million := by
      have := heq
      simp only [TokenUsage.calculate_cost] at this
      exact add_right_cancel this
    exact mul_left_cancel₀ hne h2
  · intro p' ho hp heq
    apply hp
    have hne : (t.output_tokens : ℚ) / 1000000 ≠ 0 :=
      div_ne_zero (Int.cast_ne_zero.mpr ho) (by norm_num)
    have h2 : (t.output_tokens : ℚ) / 1000000 * p'
        = (t.output_tokens : ℚ) / 1000000 * cfg.output_price_per_million := by
      have := heq
      simp only [TokenUsage.calculate_cost] at this
      exact add_left_cancel this
    exact mul_left_cancel₀ hne h2

theorem calculate_cost_live_prices_witness :
    TokenUsage.calculate_cost { input_tokens := 10, output_tokens := 5, call_count := 1 } cfg0
      = (10 : ℚ) / 1000000 * cfg0.input_price_per_million
        + (5 : ℚ) / 1000000 * cfg0.output_price_per_million ∧
    TokenUsage.calculate_cost { input_tokens := 10, output_tokens := 5, call_count := 1 }
        { cfg0 with input_price_per_million := 300 }
      ≠ TokenUsage.calculate_cost { input_tokens := 10, output_tokens := 5, call_count := 1 } cfg0 :=
  ⟨(calculate_cost_live_prices { input_tokens := 10, output_tokens := 5, call_count := 1 } cfg0).1,
   (calculate_cost_live_prices { input_tokens := 10, output_tokens := 5, call_count := 1 } cfg0).2.1
     300 (by decide) (by norm_num [cfg0])⟩

lemma make_api_request_cases (st : EngineState) (o : HttpOutcome) :
    ((make_api_request st o).result.success = false ∧
     (make_api_request st o).result.metadata = none ∧
     (make_api_request st o).state.usage = st.usage)
    ∨ ((make_api_request st o).result.success = true ∧
       (make_api_request st o).result.metadata ≠ none ∧
       (make_api_request st o).result.content ≠ none) := by
  cases o with
  | ok rd =>
    rcases hc : rd.choices with _ | l
    · cases her : rd.error with
      | none => left; simp [make_api_request, handle_successful_response, hc, her]
      | some err =>
        by_cases hin : pyInStr "afford" (err.message.getD "") <;>
          · left; simp [make_api_request, handle_successful_response, hc, her, hin]
    · cases l with
      | nil =>
        cases her : rd.error with
        | none => left; simp [make_api_request, handle_successful_response, hc, her]
        | some err =>
          by_cases hin : pyInStr "afford" (err.message.getD "") <;>
            · left; simp [make_api_request, handle_successful_response, hc, her, hin]
      | cons ch rest =>
        right; simp [make_api_request, handle_successful_response, hc]
  | badJson => left; simp [make_api_request]
  | reqError e =>
    rcases hr : e.response with _ | r
    · left; simp [make_api_request, handle_request_exception, hr]
    · by_cases h402 : r.status_code = 402
      · left; simp [make_api_request, handle_request_exception, hr, h402]
      · by_cases hauth : r.status_code = 401 ∨ r.status_code = 403
        · left; simp [make_api_request, handle_request_exception, hr, h402, hauth]
        · left; simp [make_api_request, handle_request_exception, hr, h402, hauth]
  | otherError m => left; simp [make_api_request]

/-- C10: for every call, metadata is non-None exactly when success is
true; success additionally implies content is non-None; and some failure
path does return a human-readable error string as content. -/
theorem result_triple_invariant :
    (∀ (st : EngineState) (o : HttpOutcome),
      ((make_api_request st o).result.metadata = none ↔
        (make_api_request st o).result.success = false) ∧
      ((make_api_request st o).result.success = true →
        (make_api_request st o).result.content ≠ none)) ∧
    (∃ (st : EngineState) (o : HttpOutcome),
      (make_api_request st o).result.success = false ∧
      (make_api_request st o).result.content ≠ none) := by
  constructor
  · intro st o
    rcases make_api_request_cases st o with ⟨h1, h2, _⟩ | ⟨h1, h2, h3⟩
    · exact ⟨⟨fun _ => h1, fun _ => h2⟩, fun hs => absurd (h1 ▸ hs) (by simp)⟩
    · refine ⟨⟨fun hm => absurd hm h2, fun hf => ?_⟩, fun _ => h3⟩
      rw [h1] at hf; exact absurd hf (by simp)
  · refine ⟨st0, HttpOutcome.reqError e402, ?_, ?_⟩ <;>
      simp [make_api_request, handle_request_exception, e402, paymentMsg]

theorem result_triple_invariant_witness :
    ((make_api_request st0 HttpOutcome.badJson).result.metadata = none ↔
      (make_api_request st0 HttpOutcome.badJson).result.success = false) ∧
    ((make_api_request st0 HttpOutcome.badJson).result.success = true →
      (make_api_request st0 HttpOutcome.badJson).result.content ≠ none) :=
  result_triple_invariant.1 st0 HttpOutcome.badJson

/-- C1 (counterexample): the parsed body `{"choices":[{"message":{}}]}`
lacks `choices[0].message.content`, yet the call is classified as a
success: `success = true`, the placeholder content and a metadata dict
are returned, and the usage accumulator is updated. -/
theorem missing_content_success_counterexample :
    (make_api_request st0 (HttpOutcome.ok rdNoContent)).result.success = true ∧
    (make_api_request st0 (HttpOutcome.ok rdNoContent)).result.content = some defaultContent ∧
    (make_api_request st0 (HttpOutcome.ok rdNoContent)).result.metadata ≠ none ∧
    (make_api_request st0 (HttpOutcome.ok rdNoContent)).state.usage.call_count
      = st0.usage.call_count + 1 := by
  refine ⟨?_, ?_, ?_, ?_⟩ <;>
    simp [make_api_request, handle_successful_response, rdNoContent, st0,
      TokenUsage.init, TokenUsage.update, emptyUsage]

/-- C1 (amended): the failure classification is gated on a non-empty
`choices` array only: a body whose `choices` key is absent or empty is a
failure with no content, no metadata and an untouched accumulator, while
a body with a non-empty `choices` array whose first message lacks
`content` is a success with the placeholder content, and the accumulator
is updated. -/
theorem choices_gate_classification :
    ∀ (st : EngineState) (rd : ResponseData),
      ((rd.choices = none ∨ rd.choices = some []) →
        (make_api_request st (HttpOutcome.ok rd)).result.success = false ∧
        (make_api_request st (HttpOutcome.ok rd)).result.content = none ∧
        (make_api_request st (HttpOutcome.ok rd)).result.metadata = none ∧
        (make_api_request st (HttpOutcome.ok rd)).state.usage = st.usage) ∧
      (∀ (ch : Choice) (rest : List Choice), rd.choices = some (ch :: rest) →
        ch.message.bind Message.content = none →
        (make_api_request st (HttpOutcome.ok rd)).result.success = true ∧
        (make_api_request st (HttpOutcome.ok rd)).result.content = some defaultContent ∧
        (make_api_request st (HttpOutcome.ok rd)).state.usage.call_count
          = st.usage.call_count + 1) := by
  intro st rd
  constructor
  · rintro (hc | hc) <;>
    · cases her : rd.error with
      | none => simp [make_api_request, handle_successful_response, hc, her]
      | some err =>
        by_cases hin : pyInStr "afford" (err.message.getD "") <;>
          simp [make_api_request, handle_successful_response, hc, her, hin]
  · intro ch rest hc hnone
    refine ⟨?_, ?_, ?_⟩ <;>
      simp [make_api_request, handle_successful_response, hc, hnone, TokenUsage.update]

theorem choices_gate_classification_witness :
    ((make_api_request st0 (HttpOutcome.ok
        { choices := none, usage := none, model := none, created := none, id := none,
          error := none })).result.success = false ∧
     (make_api_request st0 (HttpOutcome.ok
        { choices := none, usage := none, model := none, created := none, id := none,
          error := none })).result.content = none ∧
     (make_api_request st0 (HttpOutcome.ok
        { choices := none, usage := none, model := none, created := none, id := none,
          error := none })).result.metadata = none ∧
     (make_api_request st0 (HttpOutcome.ok
        { choices := none, usage := none, model := none, created := none, id := none,
          error := none })).state.usage = st0.usage) ∧
    ((make_api_request st0 (HttpOutcome.ok rdNoContent)).result.success = true ∧
     (make_api_request st0 (HttpOutcome.ok rdNoContent)).result.content = some defaultContent ∧
     (make_api_request st0 (HttpOutcome.ok rdNoContent)).state.usage.call_count
       = st0.usage.call_count + 1) :=
  ⟨(choices_gate_classification st0 _).1 (Or.inl rfl),
   (choices_gate_classification st0 rdNoContent).2
     { message := some { content := none } } [] rfl rfl⟩

/-- C4: the usage accumulator is updated exactly once per successful call,
via `update` with each token count defaulted to 0 when absent, and no
failure path mutates it. -/
theorem usage_updated_only_on_success :
    ∀ (st : EngineState) (o : HttpOutcome),
      ((make_api_request st o).result.success = false →
        (make_api_request st o).state.usage = st.usage) ∧
      (∀ rd : ResponseData, o = HttpOutcome.ok rd →
        (make_api_request st o).result.success = true →
        (make_api_request st o).state.usage
          = st.usage.update ((rd.usage.getD emptyUsage).prompt_tokens.getD 0)
              ((rd.usage.getD emptyUsage).completion_tokens.getD 0)) := by
  intro st o
  constructor
  · intro hf
    rcases make_api_request_cases st o with ⟨_, _, h⟩ | ⟨h1, _, _⟩
    · exact h
    · rw [h1] at hf; exact absurd hf (by simp)
  · rintro rd rfl hs
    rcases hc : rd.choices with _ | (_ | ⟨ch, rest⟩)
    · exfalso
      rcases make_api_request_cases st (HttpOutcome.ok rd) with ⟨h1, _, _⟩ | ⟨h1, h2, _⟩
      · rw [hs] at h1; exact absurd h1 (by simp)
      · revert h2
        cases her : rd.error with
        | none => simp [make_api_request, handle_successful_response, hc, her]
        | some err =>
          by_cases hin : pyInStr "afford" (err.message.getD "") <;>
            simp [make_api_request, handle_successful_response, hc, her, hin]
    · exfalso
      revert hs
      cases her : rd.error with
      | none => simp [make_api_request, handle_successful_response, hc, her]
      | some err =>
        by_cases hin : pyInStr "afford" (err.message.getD "") <;>
          simp [make_api_request, handle_successful_response, hc, her, hin]
    · simp [make_api_request, handle_successful_response, hc]

theorem usage_updated_only_on_success_witness :
    ((make_api_request st0 HttpOutcome.badJson).result.success = false →
      (make_api_request st0 HttpOutcome.badJson).state.usage = st0.usage) ∧
    ((make_api_request st0 (HttpOutcome.ok rdGood)).result.success = true →
      (make_api_request st0 (HttpOutcome.ok rdGood)).state.usage
        = st0.usage.update ((rdGood.usage.getD emptyUsage).prompt_tokens.getD 0)
            ((rdGood.usage.getD emptyUsage).completion_tokens.getD 0)) :=
  ⟨(usage_updated_only_on_success st0 HttpOutcome.badJson).1,
   (usage_updated_only_on_success st0 (HttpOutcome.ok rdGood)).2 rdGood rfl⟩

/-- C3: a 402 response yields the payment-required failure immediately:
no content beyond the error string, no metadata, `max_tokens` zeroed and
saved, the refractory-wait (seconds divided by 60) and rounded-cost
status lines emitted, the accumulator untouched, and no sleep performed. -/
theorem payment_required_402 :
    ∀ (st : EngineState) (e : ReqException) (r : RespInfo),
      e.response = some r → r.status_code = 402 →
      (make_api_request st (HttpOutcome.reqError e)).result
          = { success := false, content := some paymentMsg, metadata := none } ∧
      (make_api_request st (HttpOutcome.reqError e)).state.cfg.max_tokens = 0 ∧
      Eff.saveConfig ∈ (make_api_request st (HttpOutcome.reqError e)).effs ∧
      Eff.status (StatusEvent.creditsExhausted (st.cfg.refractory_seconds / 60))
          ∈ (make_api_request st (HttpOutcome.reqError e)).effs ∧
      Eff.status (StatusEvent.inflictedDamage (pyRound2 (st.usage.calculate_cost st.cfg)))
          ∈ (make_api_request st (HttpOutcome.reqError e)).effs ∧
      hasSleep (make_api_request st (HttpOutcome.reqError e)).effs = false ∧
      (make_api_request st (HttpOutcome.reqError e)).state.usage = st.usage := by
  intro st e r hr h402
  refine ⟨?_, ?_, ?_, ?_, ?_, ?_, ?_⟩ <;>
    simp [make_api_request, handle_request_exception, hr, h402, hasSleep]

theorem payment_required_402_witness :
    (make_api_request st0 (HttpOutcome.reqError e402)).result
        = { success := false, content := some paymentMsg, metadata := none } ∧
    (make_api_request st0 (HttpOutcome.reqError e402)).state.cfg.max_tokens = 0 ∧
    Eff.saveConfig ∈ (make_api_request st0 (HttpOutcome.reqError e402)).effs ∧
    Eff.status (StatusEvent.creditsExhausted (st0.cfg.refractory_seconds / 60))
        ∈ (make_api_request st0 (HttpOutcome.reqError e402)).effs ∧
    Eff.status (StatusEvent.inflictedDamage (pyRound2 (st0.usage.calculate_cost st0.cfg)))
        ∈ (make_api_request st0 (HttpOutcome.reqError e402)).effs ∧
    hasSleep (make_api_request st0 (HttpOutcome.reqError e402)).effs = false ∧
    (make_api_request st0 (HttpOutcome.reqError e402)).state.usage = st0.usage :=
  payment_required_402 st0 e402 { status_code := 402, text := "" } rfl rfl

lemma affordScan_cons (w : String) (rest : List String) (cfg : ConfigState) :
    affordScan (w :: rest) cfg
      = match affordHead w rest with
        | some n =>
          ((affordScan rest { cfg with max_tokens := n }).1,
           Eff.status (StatusEvent.updatedMaxTokens n) :: Eff.saveConfig
             :: (affordScan rest { cfg with max_tokens := n }).2)
        | none => affordScan rest cfg := rfl

lemma affordScan_none (ws : List String) :
    ∀ cfg : ConfigState,
      (∀ j w2, j < ws.length → ws.get? j = some "afford" → ws.get? (j+1) = some w2 →
        pyIntParse (pyRstrip w2) = none) →
      affordScan ws cfg = (cfg, []) := by
  induction ws with
  | nil => intro cfg _; rfl
  | cons w rest ih =>
    intro cfg h
    have hnext : ∀ j w2, j < rest.length → rest.get? j = some "afford" →
        rest.get? (j+1) = some w2 → pyIntParse (pyRstrip w2) = none := by
      intro j w2 hj ha hw
      exact h (j+1) w2 (by simpa using Nat.succ_lt_succ hj) (by simpa using ha)
        (by simpa using hw)
    have hhd : affordHead w rest = none := by
      cases rest with
      | nil => rfl
      | cons w2 rest2 =>
        simp only [affordHead]
        by_cases hw : w = "afford"
        · rw [if_pos hw]
          exact h 0 w2 (by simp) (by simp [hw]) (by simp)
        · rw [if_neg hw]
    simp [affordScan, hhd, ih cfg hnext]

lemma affordScan_unique (ws : List String) :
    ∀ (cfg : ConfigState) (i : Nat) (w2 : String) (n : Int),
      (∀ j, j < ws.length → ws.get? j = some "afford" → j = i) →
      ws.get? i = some "afford" →
      ws.get? (i+1) = some w2 →
      pyIntParse (pyRstrip w2) = some n →
      affordScan ws cfg
        = ({ cfg with max_tokens := n },
           [Eff.status (StatusEvent.updatedMaxTokens n), Eff.saveConfig]) := by
  induction ws with
  | nil => intro cfg i w2 n _ hi _ _; simp at hi
  | cons w rest ih =>
    intro cfg i w2 n huniq hi hw hp
    cases i with
    | zero =>
      have hwa : w = "afford" := by simpa using hi
      cases rest with
      | nil => simp at hw
      | cons v rest2 =>
        have hv : v = w2 := by simpa using hw
        subst hv
        have hhd : affordHead w (v :: rest2) = some n := by
          simp [affordHead, hwa, hp]
        have hrest : ∀ j w', j < (v :: rest2).length → (v :: rest2).get? j = some "afford" →
            (v :: rest2).get? (j+1) = some w' → pyIntParse (pyRstrip w') = none := by
          intro j w' hj ha _
          exfalso
          have := huniq (j+1) (by simpa using Nat.succ_lt_succ hj) (by simpa using ha)
          omega
        have hscan := affordScan_none (v :: rest2) { cfg with max_tokens := n } hrest
        rw [affordScan_cons, hhd]
        simp [hscan]
    | succ k =>
      have hwn : w ≠ "afford" := by
        intro hwa
        have := huniq 0 (by simp) (by simp [hwa])
        omega
      cases rest with
      | nil => simp at hi
      | cons v rest2 =>
        have hhd : affordHead w (v :: rest2) = none := by simp [affordHead, hwn]
        have huniq' : ∀ j, j < (v :: rest2).length → (v :: rest2).get? j = some "afford" →
            j = k := by
          intro j hj ha
          have := huniq (j+1) (by simpa using Nat.succ_lt_succ hj) (by simpa using ha)
          omega
        have hrec := ih cfg k w2 n huniq' (by simpa using hi) (by simpa using hw) hp
        rw [affordScan_cons, hhd]
        simpa using hrec

lemma make_malformed_afford (st : EngineState) (rd : ResponseData) (err : ErrorObj) (m : String)
    (hc : rd.choices = none ∨ rd.choices = some []) (he : rd.error = some err)
    (hm : err.message = some m) (hin : pyInStr "afford" m = true) :
    make_api_request st (HttpOutcome.ok rd)
      = { result := { success := false, content := none, metadata := none }
          state := { st with cfg := (affordScan (pySplit m) st.cfg).1 }
          effs := Eff.status (StatusEvent.sendingRequest st.cfg.model)
            :: Eff.status StatusEvent.unexpectedFormat :: (affordScan (pySplit m) st.cfg).2 } := by
  rcases hc with hc | hc <;>
    simp [make_api_request, handle_successful_response, hc, he, hm, hin]

/-- C2: on a malformed body whose error message contains "afford", the
engine scans the whitespace-delimited words for the literal word
"afford"; when the word immediately following it parses as an integer
(after stripping trailing `.,:;`), that integer becomes the new
`max_tokens` and the configuration is saved; when no word following an
"afford" parses, the configuration is untouched, no save happens, and the
classification is still the malformed failure (the total Lean function
models that no exception escapes). -/
theorem afford_hint_self_correction :
    ∀ (st : EngineState) (rd : ResponseData) (err : ErrorObj) (m : String),
      (rd.choices = none ∨ rd.choices = some []) →
      rd.error = some err →
      err.message = some m →
      pyInStr "afford" m = true →
      (∀ (i : Nat) (w2 : String) (n : Int),
        (∀ j, j < (pySplit m).length → (pySplit m).get? j = some "afford" → j = i) →
        (pySplit m).get? i = some "afford" →
        (pySplit m).get? (i+1) = some w2 →
        pyIntParse (pyRstrip w2) = some n →
        (make_api_request st (HttpOutcome.ok rd)).state.cfg = { st.cfg with max_tokens := n } ∧
        Eff.saveConfig ∈ (make_api_request st (HttpOutcome.ok rd)).effs ∧
        (make_api_request st (HttpOutcome.ok rd)).result
          = { success := false, content := none, metadata := none }) ∧
      ((∀ j, j < (pySplit m).length → (pySplit m).get? j = some "afford" →
          ((pySplit m).get? (j+1)).bind (fun w2 => pyIntParse (pyRstrip w2)) = none) →
        (make_api_request st (HttpOutcome.ok rd)).state.cfg = st.cfg ∧
        Eff.saveConfig ∉ (make_api_request st (HttpOutcome.ok rd)).effs ∧
        (make_api_request st (HttpOutcome.ok rd)).result
          = { success := false, content := none, metadata := none }) := by
  intro st rd err m hc he hm hin
  have hred := make_malformed_afford st rd err m hc he hm hin
  constructor
  · intro i w2 n huniq hi hw hp
    have hscan := affordScan_unique (pySplit m) st.cfg i w2 n huniq hi hw hp
    rw [hred]
    simp [hscan]
  · intro hnone
    have hnone' : ∀ j w2, j < (pySplit m).length → (pySplit m).get? j = some "afford" →
        (pySplit m).get? (j+1) = some w2 → pyIntParse (pyRstrip w2) = none := by
      intro j w2 hj ha hw
      have hb := hnone j hj ha
      rw [hw] at hb
      simpa using hb
    have hscan := affordScan_none (pySplit m) st.cfg hnone'
    rw [hred]
    simp [hscan]

/-- A malformed error body whose message suggests an affordable token
count. -/
def rdAffordNum : ResponseData :=
  { choices := none, usage := none, model := none, created := none, id := none
    error := some { message := some "cannot afford 1234 tokens." } }

/-- A malformed error body whose word after "afford" is non-numeric. -/
def rdAffordBad : ResponseData :=
  { choices := none, usage := none, model := none, created := none, id := none
    error := some { message := some "cannot afford abc tokens." } }

theorem afford_hint_self_correction_witness :
    ((make_api_request st0 (HttpOutcome.ok rdAffordNum)).state.cfg
        = { st0.cfg with max_tokens := 1234 } ∧
      Eff.saveConfig ∈ (make_api_request st0 (HttpOutcome.ok rdAffordNum)).effs ∧
      (make_api_request st0 (HttpOutcome.ok rdAffordNum)).result
        = { success := false, content := none, metadata := none }) ∧
    ((make_api_request st0 (HttpOutcome.ok rdAffordBad)).state.cfg = st0.cfg ∧
      Eff.saveConfig ∉ (make_api_request st0 (HttpOutcome.ok rdAffordBad)).effs ∧
      (make_api_request st0 (HttpOutcome.ok rdAffordBad)).result
        = { success := false, content := none, metadata := none }) :=
  ⟨(afford_hint_self_correction st0 rdAffordNum { message := some "cannot afford 1234 tokens." }
      "cannot afford 1234 tokens." (Or.inl rfl) rfl rfl (by decide)).1
      1 "1234" 1234 (by decide) (by decide) (by decide) (by decide),
   (afford_hint_self_correction st0 rdAffordBad { message := some "cannot afford abc tokens." }
      "cannot afford abc tokens." (Or.inl rfl) rfl rfl (by decide)).2 (by decide)⟩

lemma countCallbacks_append (a b : List Eff) :
    countCallbacks (a ++ b) = countCallbacks a + countCallbacks b := by
  induction a with
  | nil => simp [countCallbacks]
  | cons x xs ih =>
    cases x <;> simp [countCallbacks, ih, Nat.add_assoc, Nat.add_comm, Nat.add_left_comm]

lemma affordScan_delay (ws : List String) :
    ∀ cfg : ConfigState,
      (affordScan ws cfg).1.request_delay_seconds = cfg.request_delay_seconds := by
  induction ws with
  | nil => intro cfg; rfl
  | cons w rest ih =>
    intro cfg
    rw [affordScan_cons]
    cases haff : affordHead w rest with
    | none => simpa using ih cfg
    | some n => simpa using ih { cfg with max_tokens := n }

lemma affordScan_noCallback (ws : List String) :
    ∀ cfg : ConfigState, countCallbacks (affordScan ws cfg).2 = 0 := by
  induction ws with
  | nil => intro cfg; rfl
  | cons w rest ih =>
    intro cfg
    rw [affordScan_cons]
    cases haff : affordHead w rest with
    | none => simpa using ih cfg
    | some n => simpa [countCallbacks] using ih { cfg with max_tokens := n }

lemma make_api_request_delay (st : EngineState) (o : HttpOutcome) :
    (make_api_request st o).state.cfg.request_delay_seconds
      = st.cfg.request_delay_seconds := by
  cases o with
  | ok rd =>
    rcases hc : rd.choices with _ | (_ | ⟨ch, rest⟩)
    · cases her : rd.error with
      | none => simp [make_api_request, handle_successful_response, hc, her]
      | some err =>
        by_cases hin : pyInStr "afford" (err.message.getD "") <;>
          simp [make_api_request, handle_successful_response, hc, her, hin, affordScan_delay]
    · cases her : rd.error with
      | none => simp [make_api_request, handle_successful_response, hc, her]
      | some err =>
        by_cases hin : pyInStr "afford" (err.message.getD "") <;>
          simp [make_api_request, handle_successful_response, hc, her, hin, affordScan_delay]
    · simp [make_api_request, handle_successful_response, hc]
  | badJson => rfl
  | reqError e =>
    rcases hr : e.response with _ | r
    · simp [make_api_request, handle_request_exception, hr]
    · by_cases h402 : r.status_code = 402
      · simp [make_api_request, handle_request_exception, hr, h402]
      · by_cases hauth : r.status_code = 401 ∨ r.status_code = 403 <;>
          simp [make_api_request, handle_request_exception, hr, h402, hauth]
  | otherError m => rfl

lemma make_api_request_noCallback (st : EngineState) (o : HttpOutcome) :
    countCallbacks (make_api_request st o).effs = 0 := by
  cases o with
  | ok rd =>
    rcases hc : rd.choices with _ | (_ | ⟨ch, rest⟩)
    · cases her : rd.error with
      | none => simp [make_api_request, handle_successful_response, hc, her, countCallbacks]
      | some err =>
        by_cases hin : pyInStr "afford" (err.message.getD "") <;>
          simp [make_api_request, handle_successful_response, hc, her, hin, countCallbacks,
            affordScan_noCallback]
    · cases her : rd.error with
      | none => simp [make_api_request, handle_successful_response, hc, her, countCallbacks]
      | some err =>
        by_cases hin : pyInStr "afford" (err.message.getD "") <;>
          simp [make_api_request, handle_successful_response, hc, her, hin, countCallbacks,
            affordScan_noCallback]
    · simp [make_api_request, handle_successful_response, hc, countCallbacks]
  | badJson => rfl
  | reqError e =>
    rcases hr : e.response with _ | r
    · simp [make_api_request, handle_request_exception, hr, countCallbacks]
    · by_cases h402 : r.status_code = 402
      · simp [make_api_request, handle_request_exception, hr, h402, countCallbacks]
      · by_cases hauth : r.status_code = 401 ∨ r.status_code = 403 <;>
          simp [make_api_request, handle_request_exception, hr, h402, hauth, countCallbacks]
  | otherError m => rfl

lemma delayLoop_noCallback (stop : Nat → Bool) :
    ∀ k t, countCallbacks (delayLoop stop k t).2 = 0 := by
  intro k
  induction k with
  | zero => intro t; rfl
  | succ k ih =>
    intro t
    by_cases h : stop t <;> simp [delayLoop, h, countCallbacks, ih]

lemma runRequests_succ (stop : Nat → Bool) (o : Nat → HttpOutcome) (fuel : Nat)
    (st : EngineState) (n t : Nat) :
    runRequests stop o (fuel+1) st n t
      = if stop t then ([Eff.status StatusEvent.stopped], true)
        else
          let out := make_api_request st (o n)
          let evs1 := Eff.status (StatusEvent.makingCall (n + 1)) :: out.effs
            ++ [Eff.callback out.result.success out.result.content out.result.metadata]
          if stop (t + 1) then (evs1 ++ [Eff.status StatusEvent.stopped], true)
          else
            let d := delayLoop stop (delayIters out.state.cfg) (t + 2)
            let rest := runRequests stop o fuel out.state (n + 1) d.1
            (evs1 ++ Eff.status (StatusEvent.waiting out.state.cfg.request_delay_seconds)
               :: d.2 ++ rest.1, rest.2) := rfl

lemma delayIters_congr (cfg cfg' : ConfigState)
    (h : cfg.request_delay_seconds = cfg'.request_delay_seconds) :
    delayIters cfg = delayIters cfg' := by
  simp [delayIters, h]

lemma runRequests_ctrl (stop : Nat → Bool) (o o' : Nat → HttpOutcome) :
    ∀ (fuel : Nat) (st st' : EngineState) (n t : Nat),
      st.cfg.request_delay_seconds = st'.cfg.request_delay_seconds →
      (runRequests stop o fuel st n t).2 = (runRequests stop o' fuel st' n t).2 ∧
      countCallbacks (runRequests stop o fuel st n t).1
        = countCallbacks (runRequests stop o' fuel st' n t).1 := by
  intro fuel
  induction fuel with
  | zero => intro st st' n t _; exact ⟨rfl, rfl⟩
  | succ fuel ih =>
    intro st st' n t hd
    rw [runRequests_succ stop o, runRequests_succ stop o']
    by_cases h0 : stop t
    · simp [h0]
    · by_cases h1 : stop (t+1)
      · simp [h0, h1, countCallbacks, countCallbacks_append, make_api_request_noCallback]
      · have hdd : (make_api_request st (o n)).state.cfg.request_delay_seconds
            = (make_api_request st' (o' n)).state.cfg.request_delay_seconds := by
          rw [make_api_request_delay, make_api_request_delay, hd]
        have hit := delayIters_congr _ _ hdd
        have hrec := ih (make_api_request st (o n)).state (make_api_request st' (o' n)).state
          (n+1)
          (delayLoop stop (delayIters (make_api_request st (o n)).state.cfg) (t+2)).1 hdd
        simp only [h0, h1, Bool.false_eq_true, if_false]
        simp [countCallbacks, countCallbacks_append, make_api_request_noCallback,
          delayLoop_noCallback]
        rw [← hit]
        exact ⟨hrec.1, hrec.2⟩

lemma runRequests_noStop (o : Nat → HttpOutcome) :
    ∀ (fuel : Nat) (st : EngineState) (n t : Nat),
      (runRequests (fun _ => false) o fuel st n t).2 = false ∧
      countCallbacks (runRequests (fun _ => false) o fuel st n t).1 = fuel := by
  intro fuel
  induction fuel with
  | zero => intro st n t; exact ⟨rfl, rfl⟩
  | succ fuel ih =>
    intro st n t
    rw [runRequests_succ]
    have hrec := ih (make_api_request st (o n)).state (n+1)
      (delayLoop (fun _ => false) (delayIters (make_api_request st (o n)).state.cfg) (t+2)).1
    simp [countCallbacks, countCallbacks_append, make_api_request_noCallback,
      delayLoop_noCallback, hrec.1, hrec.2]

lemma runRequests_exit_requires_stop (stop : Nat → Bool) (o : Nat → HttpOutcome) :
    ∀ (fuel : Nat) (st : EngineState) (n t : Nat),
      (runRequests stop o fuel st n t).2 = true → ∃ u, stop u = true := by
  intro fuel
  induction fuel with
  | zero =>
    intro st n t h
    exact absurd h (by simp [runRequests])
  | succ fuel ih =>
    intro st n t h
    by_cases h0 : stop t
    · exact ⟨t, h0⟩
    · by_cases h1 : stop (t+1)
      · exact ⟨t+1, h1⟩
      · rw [runRequests_succ] at h
        simp only [h0, h1, Bool.false_eq_true, if_false] at h
        exact ih _ _ _ h

/-- C6: the continuous loop never terminates because of a failed call:
its exit decision and its per-iteration callback count are independent of
the call outcomes (any stream of failures behaves like any stream of
successes), a loop whose stop flag is never set never exits and performs
one callback per iteration, and an exit implies some read of the stop
flag observed true. -/
theorem loop_never_stops_on_failure :
    (∀ (stop : Nat → Bool) (o o' : Nat → HttpOutcome) (fuel : Nat) (st st' : EngineState)
        (n t : Nat),
      st.cfg.request_delay_seconds = st'.cfg.request_delay_seconds →
      (runRequests stop o fuel st n t).2 = (runRequests stop o' fuel st' n t).2 ∧
      countCallbacks (runRequests stop o fuel st n t).1
        = countCallbacks (runRequests stop o' fuel st' n t).1) ∧
    (∀ (o : Nat → HttpOutcome) (fuel : Nat) (st : EngineState) (n t : Nat),
      (runRequests (fun _ => false) o fuel st n t).2 = false ∧
      countCallbacks (runRequests (fun _ => false) o fuel st n t).1 = fuel) ∧
    (∀ (stop : Nat → Bool) (o : Nat → HttpOutcome) (fuel : Nat) (st : EngineState) (n t : Nat),
      (runRequests stop o fuel st n t).2 = true → ∃ u, stop u = true) :=
  ⟨fun stop o o' fuel st st' n t hd => runRequests_ctrl stop o o' fuel st st' n t hd,
   fun o fuel st n t => runRequests_noStop o fuel st n t,
   fun stop o fuel st n t h => runRequests_exit_requires_stop stop o fuel st n t h⟩

theorem loop_never_stops_on_failure_witness :
    ((runRequests (fun _ => false) oFailStream 2 st0 0 0).2
        = (runRequests (fun _ => false) oOkStream 2 st0 0 0).2 ∧
      countCallbacks (runRequests (fun _ => false) oFailStream 2 st0 0 0).1
        = countCallbacks (runRequests (fun _ => false) oOkStream 2 st0 0 0).1) ∧
    ((runRequests (fun _ => false) oFailStream 3 st0 0 0).2 = false ∧
      countCallbacks (runRequests (fun _ => false) oFailStream 3 st0 0 0).1 = 3) ∧
    (∃ u, (fun _ : Nat => true) u = true) :=
  ⟨loop_never_stops_on_failure.1 (fun _ => false) oFailStream oOkStream 2 st0 st0 0 0 rfl,
   loop_never_stops_on_failure.2.1 oFailStream 3 st0 0 0,
   loop_never_stops_on_failure.2.2 (fun _ => true) oFailStream 1 st0 0 0 (by decide)⟩
